import Mathlib

/-!
# The PyTorch tensor JNI bridge

A shallow embedding of `ai_djl_pytorch_jni_PyTorchLibrary_tensor.cc`: the twelve
JNI entry points that expose shape, dtype, device, layout, casting, cloning,
slicing, raw data and deletion of a native `torch::Tensor` to Java.

The embedding passes three pieces of state explicitly:

* `JNIEnv`  : the pending Java exception, whether the Java heap can serve an
  array allocation, and the list of JNI calls made so far;
* `Heap`    : the live `torch::Tensor` objects by address and the raw memory
  their `data_ptr()` point into;
* `Flow`    : how control leaves a block of C++ (a `return`, the closing brace,
  a C++ exception, the bracket's translation of one, or undefined behaviour).

`ThrowNew` only records a pending exception: as in JNI, the native code keeps
running after it until it returns.
-/

namespace DJL

/-! ## C++ and JNI values -/

/-- A C++ exception (`c10::Error`, `std::exception`) with its `what()` text. -/
structure NativeError where
  what : String
deriving DecidableEq, Repr

/-- A Java throwable pending in the JNI environment: the class handed to
`ThrowNew` and its message. -/
structure JThrowable where
  cls : String
  msg : String
deriving DecidableEq, Repr

/-- A reference to a Java primitive array (`jlongArray`, `jintArray`,
`jbyteArray`): `none` is the null reference, `some xs` an array with elements `xs`. -/
abbrev jarray := Option (List Int)

/-- The JNI calls of the bridge that have an effect, as they are recorded in the
environment. A `Set...ArrayRegion` entry keeps the target reference and the
elements that were read from the native buffer. -/
inductive JniCall where
  | ThrowNew (cls : String) (msg : String)
  | NewLongArray (len : Int) (result : jarray)
  | NewIntArray (len : Int) (result : jarray)
  | NewByteArray (len : Int) (result : jarray)
  | SetLongArrayRegion (array : jarray) (start : Int) (len : Int) (copied : List Int)
  | SetIntArrayRegion (array : jarray) (start : Int) (len : Int) (copied : List Int)
  | SetByteArrayRegion (array : jarray) (start : Int) (len : Int) (copied : List Int)
deriving DecidableEq, Repr

/-- The JNI environment of one native call. -/
structure JNIEnv where
  /-- the exception the JVM raises in the Java caller once the native code returns -/
  pending : Option JThrowable
  /-- whether the Java heap can serve a primitive-array allocation -/
  heapAvailable : Bool
  /-- the JNI calls made so far, oldest first -/
  calls : List JniCall
deriving DecidableEq, Repr

/-- The conversion of a C++ integer (`int64_t`, `size_t`) to `jsize`, a signed
32-bit integer: the value modulo 2^32, read in two's complement. -/
def toJsize (n : Int) : Int :=
  (n + 2 ^ 31) % 2 ^ 32 - 2 ^ 31

/-- `JNI_TRUE` of jni.h. -/
def JNI_TRUE : Nat := 1

/-- `env->FindClass(name)`: the class reference, identified with its name. -/
def JNIEnv.FindClass (_env : JNIEnv) (name : String) : String :=
  name

/-- `env->ThrowNew(cls, msg)`: makes the exception pending and returns to the
native code. -/
def JNIEnv.ThrowNew (env : JNIEnv) (cls : String) (msg : String) : JNIEnv :=
  { env with pending := some ⟨cls, msg⟩, calls := env.calls ++ [JniCall.ThrowNew cls msg] }

/-- The array a `New<Primitive>Array(len)` call yields: a zero-filled array of
`len` elements, or the null reference when the array cannot be constructed. -/
def newPrimitiveArray (env : JNIEnv) (len : Int) : jarray :=
  if env.heapAvailable = true ∧ 0 ≤ len then some (List.replicate len.toNat 0) else none

/-- The elements `Set<Primitive>ArrayRegion(_, _, len, buf)` reads from the
native buffer `buf`. -/
def readBuffer (buf : Nat → Int) (len : Int) : List Int :=
  (List.range len.toNat).map buf

/-- The array after `Set<Primitive>ArrayRegion(array, start, len, buf)`: the
region is overwritten when it lies inside the array; there is nothing to write
into behind a null reference. -/
def setPrimitiveArrayRegion (array : jarray) (start len : Int) (buf : Nat → Int) : jarray :=
  match array with
  | none => none
  | some xs =>
    if 0 ≤ start ∧ 0 ≤ len ∧ start + len ≤ xs.length then
      some (xs.take start.toNat ++ readBuffer buf len ++ xs.drop (start.toNat + len.toNat))
    else some xs

/-- `env->NewLongArray(len)`. -/
def JNIEnv.NewLongArray (env : JNIEnv) (len : Int) : jarray × JNIEnv :=
  (newPrimitiveArray env len,
    { env with calls := env.calls ++ [JniCall.NewLongArray len (newPrimitiveArray env len)] })

/-- `env->NewIntArray(len)`. -/
def JNIEnv.NewIntArray (env : JNIEnv) (len : Int) : jarray × JNIEnv :=
  (newPrimitiveArray env len,
    { env with calls := env.calls ++ [JniCall.NewIntArray len (newPrimitiveArray env len)] })

/-- `env->NewByteArray(len)`. -/
def JNIEnv.NewByteArray (env : JNIEnv) (len : Int) : jarray × JNIEnv :=
  (newPrimitiveArray env len,
    { env with calls := env.calls ++ [JniCall.NewByteArray len (newPrimitiveArray env len)] })

/-- `env->SetLongArrayRegion(array, start, len, buf)`. -/
def JNIEnv.SetLongArrayRegion (env : JNIEnv) (array : jarray) (start len : Int)
    (buf : Nat → Int) : jarray × JNIEnv :=
  (setPrimitiveArrayRegion array start len buf,
    { env with calls :=
        env.calls ++ [JniCall.SetLongArrayRegion array start len (readBuffer buf len)] })

/-- `env->SetIntArrayRegion(array, start, len, buf)`. -/
def JNIEnv.SetIntArrayRegion (env : JNIEnv) (array : jarray) (start len : Int)
    (buf : Nat → Int) : jarray × JNIEnv :=
  (setPrimitiveArrayRegion array start len buf,
    { env with calls :=
        env.calls ++ [JniCall.SetIntArrayRegion array start len (readBuffer buf len)] })

/-- `env->SetByteArrayRegion(array, start, len, buf)`. -/
def JNIEnv.SetByteArrayRegion (env : JNIEnv) (array : jarray) (start len : Int)
    (buf : Nat → Int) : jarray × JNIEnv :=
  (setPrimitiveArrayRegion array start len buf,
    { env with calls :=
        env.calls ++ [JniCall.SetByteArrayRegion array start len (readBuffer buf len)] })

/-! ## The native library's tensors -/

/-- A native address into tensor storage: the storage block and the byte
offset inside it. -/
structure Ptr where
  block : Nat
  offset : Nat
deriving DecidableEq, Repr

/-- Raw memory: the byte (as a `jbyte`) at each offset of each storage block. -/
abbrev Memory := Nat → Nat → Int

/-- What the bridge reads of a `torch::Tensor`: the result of each accessor it
calls. Enum values (`scalar_type`, `device().type()`, `layout`) are kept as the
integers of the native enums. -/
structure Tensor where
  sizes : List Int
  scalar_type : Int
  device_type : Int
  device_index : Int
  layout : Int
  is_contiguous : Bool
  nbytes : Nat
  data_ptr : Ptr
deriving DecidableEq, Repr

/-- `tensor.dim()`: the number of entries of `sizes()`. -/
def Tensor.dim (t : Tensor) : Nat :=
  t.sizes.length

/-- `torch::kStrided` of the native layout enum. -/
def kStrided : Int := 0

/-- `torch::kSparse` of the native layout enum. -/
def kSparse : Int := 1

/-- `torch::kMkldnn` of the native layout enum. -/
def kMkldnn : Int := 2

/-- The native heap: the live `torch::Tensor` objects by address, and the raw
memory behind their data pointers. -/
structure Heap where
  tensors : Nat → Option Tensor
  mem : Memory

/-- `new torch::Tensor(t)` placed at address `p`, with the memory `mem` the
native call that produced `t` left behind. -/
def Heap.new (heap : Heap) (p : Nat) (t : Tensor) (mem : Memory) : Heap :=
  { tensors := fun q => if q = p then some t else heap.tensors q, mem := mem }

/-- `delete p`: the object at `p` is destroyed and its address released. -/
def Heap.delete (heap : Heap) (p : Nat) : Heap :=
  { heap with tensors := fun q => if q = p then none else heap.tensors q }

/-- The native buffer `data_ptr()` of a tensor points to, as the bytes at
successive offsets. -/
def Heap.buffer (heap : Heap) (ptr : Ptr) : Nat → Int :=
  fun k => heap.mem ptr.block (ptr.offset + k)

/-- The tensor methods and functions of the native library that the bridge
delegates to. Each takes the raw memory, may raise a C++ exception, and
otherwise yields the resulting tensor and the memory afterwards. The field
`to_` is the method `to` (a reserved word here). -/
structure Torch where
  to_ : Memory → Tensor → Int × Int → Int → Bool → Bool → Except NativeError (Tensor × Memory)
  clone : Memory → Tensor → Except NativeError (Tensor × Memory)
  slice : Memory → Tensor → Int → Int → Int → Int → Except NativeError (Tensor × Memory)
  masked_select : Memory → Tensor → Tensor → Except NativeError (Tensor × Memory)
  logical_xor : Memory → Tensor → Tensor → Except NativeError (Tensor × Memory)
  logical_not : Memory → Tensor → Except NativeError (Tensor × Memory)

/-- The helpers of `djl_pytorch_jni_utils.h` and the exception class of
`djl_pytorch_jni_error.h`, whose sources are not part of this file: they are
parameters of the embedding.

* `GetPointerFromJHandle` resolves a Java handle object to the native address
  it wraps, or raises;
* `CreatePointer` wraps a native address in a new Java handle object;
* `GetDeviceFromJDevice` decodes a `[device-type, device-index]` array;
* `dtypeTable` is the fixed lookup table between dtype codes (first component)
  and native scalar types (second component);
* `apiExceptionClass` is the managed exception class `API_END` raises. -/
structure Utils where
  GetPointerFromJHandle : Nat → Except NativeError Nat
  CreatePointer : Nat → Nat
  GetDeviceFromJDevice : List Int → Except NativeError (Int × Int)
  dtypeTable : List (Int × Int)
  apiExceptionClass : String

/-- Modelled from the spec: `utils::GetScalarTypeFromDType` of
`djl_pytorch_jni_utils.h`, missing from the sources. The dtype code is looked
up in the fixed table; a code the table does not map has no scalar type. -/
def GetScalarTypeFromDType (U : Utils) (dtype : Int) : Option Int :=
  (U.dtypeTable.find? (fun e => decide (e.1 = dtype))).map Prod.snd

/-- Modelled from the spec: `utils::GetDTypeFromScalarType` of
`djl_pytorch_jni_utils.h`, missing from the sources. The native scalar type is
looked up in the same fixed table, read in the other direction; a scalar type
the table does not map has no dtype code. -/
def GetDTypeFromScalarType (U : Utils) (type : Int) : Option Int :=
  (U.dtypeTable.find? (fun e => decide (e.2 = type))).map Prod.fst

/-! ## Control flow and results -/

/-- How control leaves a block of C++. -/
inductive Flow (α : Type) where
  /-- a `return v;` statement ran -/
  | ret (v : α)
  /-- control reached the end of the block without a `return`; at the end of a
  function that returns a value this is undefined behaviour -/
  | fall
  /-- the error-translation bracket caught a C++ exception and re-raised it as
  a managed exception -/
  | caught
  /-- a C++ exception is propagating -/
  | raise (e : NativeError)
  /-- a pointer that is not a live tensor was dereferenced, or a value the
  helpers leave undefined was used -/
  | undef
deriving DecidableEq, Repr

/-- The result of running an entry point (or its body): how control left it,
the JNI environment and the native heap afterwards. -/
structure Out (α : Type) where
  flow : Flow α
  env : JNIEnv
  heap : Heap

/-- What the Java caller observes of a native call. -/
inductive JavaResult (α : Type) where
  /-- the call returned `v` -/
  | value (v : α)
  /-- the call raised the pending exception -/
  | exception (t : JThrowable)
  /-- the native code left no defined result: a C++ exception crossed the
  boundary, control ran off the end of a function that returns a value, or
  other undefined behaviour -/
  | unspecified
deriving DecidableEq, Repr

/-- The Java caller's view of a finished native call. After a `return` a
pending exception is raised whatever value was returned, otherwise the value
stands. After the bracket translated a C++ exception the managed exception it
made pending is raised. Running off the end of the function without a
`return` leaves no defined result, whether or not an exception is pending. -/
def Out.java {α : Type} (o : Out α) : JavaResult α :=
  match o.flow with
  | Flow.raise _ => JavaResult.unspecified
  | Flow.undef => JavaResult.unspecified
  | Flow.fall => JavaResult.unspecified
  | Flow.ret v =>
    match o.env.pending with
    | some t => JavaResult.exception t
    | none => JavaResult.value v
  | Flow.caught =>
    match o.env.pending with
    | some t => JavaResult.exception t
    | none => JavaResult.unspecified

/-- Modelled from the spec: the `API_BEGIN()` ... `API_END()` bracket of
`djl_pytorch_jni_error.h`, missing from the sources. A C++ exception raised by
the bracketed body is caught and re-raised as a managed exception carrying
the original message. Any other outcome of the body is left as it is: a body
that runs off its end without a `return` runs off the end of the function. -/
def API_END {α : Type} (U : Utils) (body : Out α) : Out α :=
  match body.flow with
  | Flow.raise e =>
    { flow := Flow.caught
      env := body.env.ThrowNew (body.env.FindClass U.apiExceptionClass) e.what
      heap := body.heap }
  | _ => body

/-! ## The entry points -/

/-- `Java_ai_djl_pytorch_jni_PyTorchLibrary_torchSizes`: a new `long[]` of
`dim()` elements filled from `sizes().data()`. -/
def Java_ai_djl_pytorch_jni_PyTorchLibrary_torchSizes (U : Utils) (env : JNIEnv) (heap : Heap)
    (jhandle : Nat) : Out jarray :=
  API_END U <|
    match U.GetPointerFromJHandle jhandle with
    | Except.error e => { flow := Flow.raise e, env := env, heap := heap }
    | Except.ok tensor_ptr =>
      match heap.tensors tensor_ptr with
      | none => { flow := Flow.undef, env := env, heap := heap }
      | some t =>
        let size := env.NewLongArray (toJsize t.dim)
        let filled := size.2.SetLongArrayRegion size.1 0 (toJsize t.dim) (fun k => t.sizes.getD k 0)
        { flow := Flow.ret filled.1, env := filled.2, heap := heap }

/-- `Java_ai_djl_pytorch_jni_PyTorchLibrary_torchDType`: the dtype code of the
tensor's scalar type. -/
def Java_ai_djl_pytorch_jni_PyTorchLibrary_torchDType (U : Utils) (env : JNIEnv) (heap : Heap)
    (jhandle : Nat) : Out Int :=
  API_END U <|
    match U.GetPointerFromJHandle jhandle with
    | Except.error e => { flow := Flow.raise e, env := env, heap := heap }
    | Except.ok tensor_ptr =>
      match heap.tensors tensor_ptr with
      | none => { flow := Flow.undef, env := env, heap := heap }
      | some t =>
        match GetDTypeFromScalarType U t.scalar_type with
        | none => { flow := Flow.undef, env := env, heap := heap }
        | some dtype => { flow := Flow.ret dtype, env := env, heap := heap }

/-- `Java_ai_djl_pytorch_jni_PyTorchLibrary_torchDevice`: a new `int[2]` holding
the device type and the device index. The class lookup precedes `API_BEGIN()`;
after the `ThrowNew` for a null array the code runs on to `SetIntArrayRegion`
and `return result`. -/
def Java_ai_djl_pytorch_jni_PyTorchLibrary_torchDevice (U : Utils) (env : JNIEnv) (heap : Heap)
    (jhandle : Nat) : Out jarray :=
  let jexception := env.FindClass "java/lang/NullPointerException"
  API_END U <|
    match U.GetPointerFromJHandle jhandle with
    | Except.error e => { flow := Flow.raise e, env := env, heap := heap }
    | Except.ok tensor_ptr =>
      match heap.tensors tensor_ptr with
      | none => { flow := Flow.undef, env := env, heap := heap }
      | some t =>
        let result := env.NewIntArray 2
        let env1 :=
          if result.1 = none then result.2.ThrowNew jexception "Unable to create int array"
          else result.2
        let temp_device : List Int := [t.device_type, t.device_index]
        let filled := env1.SetIntArrayRegion result.1 0 2 (fun k => temp_device.getD k 0)
        { flow := Flow.ret filled.1, env := filled.2, heap := heap }

/-- `Java_ai_djl_pytorch_jni_PyTorchLibrary_torchLayout`: the `switch` over the
native layout; its `default` branch calls `ThrowNew` and leaves the `switch`,
the bracket and the function without a `return`. -/
def Java_ai_djl_pytorch_jni_PyTorchLibrary_torchLayout (U : Utils) (env : JNIEnv) (heap : Heap)
    (jhandle : Nat) : Out Int :=
  API_END U <|
    let jexception := env.FindClass "java/lang/IllegalStateException"
    match U.GetPointerFromJHandle jhandle with
    | Except.error e => { flow := Flow.raise e, env := env, heap := heap }
    | Except.ok tensor_ptr =>
      match heap.tensors tensor_ptr with
      | none => { flow := Flow.undef, env := env, heap := heap }
      | some t =>
        let layout := t.layout
        if layout = kStrided then { flow := Flow.ret 0, env := env, heap := heap }
        else if layout = kSparse then { flow := Flow.ret 1, env := env, heap := heap }
        else if layout = kMkldnn then { flow := Flow.ret 2, env := env, heap := heap }
        else
          { flow := Flow.fall
            env := env.ThrowNew jexception
              "Internal PyTorch error, layout should only have kStrided, kSparse or kMkldnn"
            heap := heap }

/-- `Java_ai_djl_pytorch_jni_PyTorchLibrary_torchTo`: the tensor converted by
the native `to(device, scalar type, false, jcopy == JNI_TRUE)`, placed in a new
`torch::Tensor` at the address `result_ptr` that `new` hands out, and wrapped
in a handle. -/
def Java_ai_djl_pytorch_jni_PyTorchLibrary_torchTo (U : Utils) (L : Torch) (env : JNIEnv)
    (heap : Heap) (jhandle : Nat) (jdtype : Int) (jdevice : List Int) (jcopy : Nat)
    (result_ptr : Nat) : Out Nat :=
  API_END U <|
    match U.GetPointerFromJHandle jhandle with
    | Except.error e => { flow := Flow.raise e, env := env, heap := heap }
    | Except.ok tensor_ptr =>
      match U.GetDeviceFromJDevice jdevice with
      | Except.error e => { flow := Flow.raise e, env := env, heap := heap }
      | Except.ok device =>
        match heap.tensors tensor_ptr, GetScalarTypeFromDType U jdtype with
        | some t, some type =>
          match L.to_ heap.mem t device type false (decide (jcopy = JNI_TRUE)) with
          | Except.error e => { flow := Flow.raise e, env := env, heap := heap }
          | Except.ok r =>
            { flow := Flow.ret (U.CreatePointer result_ptr), env := env
              heap := heap.new result_ptr r.1 r.2 }
        | _, _ => { flow := Flow.undef, env := env, heap := heap }

/-- `Java_ai_djl_pytorch_jni_PyTorchLibrary_tensorClone`: the native `clone()`
of the tensor, placed in a new `torch::Tensor` at `result_ptr` and wrapped in a
handle. -/
def Java_ai_djl_pytorch_jni_PyTorchLibrary_tensorClone (U : Utils) (L : Torch) (env : JNIEnv)
    (heap : Heap) (jhandle : Nat) (result_ptr : Nat) : Out Nat :=
  API_END U <|
    match U.GetPointerFromJHandle jhandle with
    | Except.error e => { flow := Flow.raise e, env := env, heap := heap }
    | Except.ok tensor_ptr =>
      match heap.tensors tensor_ptr with
      | none => { flow := Flow.undef, env := env, heap := heap }
      | some t =>
        match L.clone heap.mem t with
        | Except.error e => { flow := Flow.raise e, env := env, heap := heap }
        | Except.ok r =>
          { flow := Flow.ret (U.CreatePointer result_ptr), env := env
            heap := heap.new result_ptr r.1 r.2 }

/-- `Java_ai_djl_pytorch_jni_PyTorchLibrary_torchSlice`: the native
`slice(jdim, jstart, jend, jstep)` in a new tensor object. -/
def Java_ai_djl_pytorch_jni_PyTorchLibrary_torchSlice (U : Utils) (L : Torch) (env : JNIEnv)
    (heap : Heap) (jhandle : Nat) (jdim jstart jend jstep : Int) (result_ptr : Nat) : Out Nat :=
  API_END U <|
    match U.GetPointerFromJHandle jhandle with
    | Except.error e => { flow := Flow.raise e, env := env, heap := heap }
    | Except.ok tensor_ptr =>
      match heap.tensors tensor_ptr with
      | none => { flow := Flow.undef, env := env, heap := heap }
      | some t =>
        match L.slice heap.mem t jdim jstart jend jstep with
        | Except.error e => { flow := Flow.raise e, env := env, heap := heap }
        | Except.ok r =>
          { flow := Flow.ret (U.CreatePointer result_ptr), env := env
            heap := heap.new result_ptr r.1 r.2 }

/-- `Java_ai_djl_pytorch_jni_PyTorchLibrary_torchMaskedSelect`: the native
`masked_select(*index_ptr)` in a new tensor object. -/
def Java_ai_djl_pytorch_jni_PyTorchLibrary_torchMaskedSelect (U : Utils) (L : Torch)
    (env : JNIEnv) (heap : Heap) (jhandle : Nat) (jmasked_handle : Nat) (result_ptr : Nat) :
    Out Nat :=
  API_END U <|
    match U.GetPointerFromJHandle jhandle with
    | Except.error e => { flow := Flow.raise e, env := env, heap := heap }
    | Except.ok tensor_ptr =>
      match U.GetPointerFromJHandle jmasked_handle with
      | Except.error e => { flow := Flow.raise e, env := env, heap := heap }
      | Except.ok index_ptr =>
        match heap.tensors tensor_ptr, heap.tensors index_ptr with
        | some t, some index =>
          match L.masked_select heap.mem t index with
          | Except.error e => { flow := Flow.raise e, env := env, heap := heap }
          | Except.ok r =>
            { flow := Flow.ret (U.CreatePointer result_ptr), env := env
              heap := heap.new result_ptr r.1 r.2 }
        | _, _ => { flow := Flow.undef, env := env, heap := heap }

/-- `Java_ai_djl_pytorch_jni_PyTorchLibrary_torchDataPtr`: a new `byte[]` of
`nbytes()` elements filled from `data_ptr()`. After the `ThrowNew` for a tensor
that is not contiguous the code runs on to `NewByteArray`,
`SetByteArrayRegion` and `return result`. -/
def Java_ai_djl_pytorch_jni_PyTorchLibrary_torchDataPtr (U : Utils) (env : JNIEnv) (heap : Heap)
    (jhandle : Nat) : Out jarray :=
  API_END U <|
    let jexception := env.FindClass "java/lang/IllegalStateException"
    match U.GetPointerFromJHandle jhandle with
    | Except.error e => { flow := Flow.raise e, env := env, heap := heap }
    | Except.ok tensor_ptr =>
      match heap.tensors tensor_ptr with
      | none => { flow := Flow.undef, env := env, heap := heap }
      | some t =>
        let env1 :=
          if t.is_contiguous = false then
            env.ThrowNew jexception "Currently data_ptr() only supports contiguous tensors"
          else env
        let result := env1.NewByteArray (toJsize t.nbytes)
        let filled :=
          result.2.SetByteArrayRegion result.1 0 (toJsize t.nbytes) (heap.buffer t.data_ptr)
        { flow := Flow.ret filled.1, env := filled.2, heap := heap }

/-- `Java_ai_djl_pytorch_jni_PyTorchLibrary_torchDeleteTensor`: resolves the
handle and deletes the tensor object. The body is not enclosed in
`API_BEGIN()` ... `API_END()`; the function is `void`, so reaching its end is
a normal return. -/
def Java_ai_djl_pytorch_jni_PyTorchLibrary_torchDeleteTensor (U : Utils) (env : JNIEnv)
    (heap : Heap) (jhandle : Nat) : Out Unit :=
  match U.GetPointerFromJHandle jhandle with
  | Except.error e => { flow := Flow.raise e, env := env, heap := heap }
  | Except.ok tensor_ptr =>
    match heap.tensors tensor_ptr with
    | none => { flow := Flow.undef, env := env, heap := heap }
    | some _ => { flow := Flow.ret (), env := env, heap := heap.delete tensor_ptr }

/-- `Java_ai_djl_pytorch_jni_PyTorchLibrary_torchLogicalXor`: the native
`logical_xor(*self_ptr, *other_ptr)` in a new tensor object. -/
def Java_ai_djl_pytorch_jni_PyTorchLibrary_torchLogicalXor (U : Utils) (L : Torch)
    (env : JNIEnv) (heap : Heap) (jself : Nat) (jother : Nat) (result_ptr : Nat) : Out Nat :=
  API_END U <|
    match U.GetPointerFromJHandle jself with
    | Except.error e => { flow := Flow.raise e, env := env, heap := heap }
    | Except.ok self_ptr =>
      match U.GetPointerFromJHandle jother with
      | Except.error e => { flow := Flow.raise e, env := env, heap := heap }
      | Except.ok other_ptr =>
        match heap.tensors self_ptr, heap.tensors other_ptr with
        | some self, some other =>
          match L.logical_xor heap.mem self other with
          | Except.error e => { flow := Flow.raise e, env := env, heap := heap }
          | Except.ok r =>
            { flow := Flow.ret (U.CreatePointer result_ptr), env := env
              heap := heap.new result_ptr r.1 r.2 }
        | _, _ => { flow := Flow.undef, env := env, heap := heap }

/-- `Java_ai_djl_pytorch_jni_PyTorchLibrary_torchLogicalNot`: the native
`logical_not()` in a new tensor object. -/
def Java_ai_djl_pytorch_jni_PyTorchLibrary_torchLogicalNot (U : Utils) (L : Torch)
    (env : JNIEnv) (heap : Heap) (jhandle : Nat) (result_ptr : Nat) : Out Nat :=
  API_END U <|
    match U.GetPointerFromJHandle jhandle with
    | Except.error e => { flow := Flow.raise e, env := env, heap := heap }
    | Except.ok tensor_ptr =>
      match heap.tensors tensor_ptr with
      | none => { flow := Flow.undef, env := env, heap := heap }
      | some t =>
        match L.logical_not heap.mem t with
        | Except.error e => { flow := Flow.raise e, env := env, heap := heap }
        | Except.ok r =>
          { flow := Flow.ret (U.CreatePointer result_ptr), env := env
            heap := heap.new result_ptr r.1 r.2 }

/-! ## Contracts of the collaborators -/

/-- The handle of a live tensor: `jhandle` resolves to the address
`tensor_ptr`, where the tensor object `t` lives. -/
def ValidHandle (U : Utils) (heap : Heap) (jhandle : Nat) (tensor_ptr : Nat) (t : Tensor) : Prop :=
  U.GetPointerFromJHandle jhandle = Except.ok tensor_ptr ∧ heap.tensors tensor_ptr = some t

/-- Sample helpers: a handle object is identified with the address it wraps,
the null handle `0` makes the resolution raise, and the dtype table pairs the
codes 0..7 with scalar types of the native enum. -/
def sampleUtils : Utils where
  GetPointerFromJHandle := fun h =>
    if h = 0 then Except.error ⟨"null handle"⟩ else Except.ok h
  CreatePointer := fun p => p
  GetDeviceFromJDevice := fun d =>
    match d with
    | [type, index] => Except.ok (type, index)
    | _ => Except.error ⟨"device array must have 2 elements"⟩
  dtypeTable := [(0, 6), (1, 7), (2, 5), (3, 0), (4, 3), (5, 1), (6, 4), (7, 11)]
  apiExceptionClass := "ai/djl/engine/EngineException"

/-- Sample native library: `to` retags device and scalar type, `clone` copies
the bytes of the tensor into the next storage block, the other operations
raise. -/
def sampleTorch : Torch where
  to_ := fun mem t device type _ _ =>
    Except.ok ({ t with scalar_type := type, device_type := device.1, device_index := device.2 }, mem)
  clone := fun mem t =>
    Except.ok ({ t with data_ptr := ⟨t.data_ptr.block + 1, 0⟩ },
      fun b k =>
        if b = t.data_ptr.block + 1 then mem t.data_ptr.block (t.data_ptr.offset + k) else mem b k)
  slice := fun _ _ _ _ _ _ => Except.error ⟨"slice: index out of range"⟩
  masked_select := fun _ _ _ => Except.error ⟨"masked_select: shape mismatch"⟩
  logical_xor := fun _ _ _ => Except.error ⟨"logical_xor: shape mismatch"⟩
  logical_not := fun mem t => Except.ok (t, mem)

/-- Sample raw memory: byte `k` of block `b` is `10 * b + k`. -/
def sampleMemory : Memory :=
  fun b k => 10 * (b : Int) + (k : Int)

/-- A contiguous 2x2 byte tensor on the CPU over block 0. -/
def sampleTensor : Tensor :=
  { sizes := [2, 2], scalar_type := 0, device_type := 0, device_index := -1, layout := 0
    is_contiguous := true, nbytes := 4, data_ptr := ⟨0, 0⟩ }

/-- A transposed, hence not contiguous, view of `sampleTensor`. -/
def sampleView : Tensor :=
  { sampleTensor with is_contiguous := false }

/-- A tensor whose layout is none of the three the bridge knows. -/
def sampleOddLayout : Tensor :=
  { sampleTensor with layout := 5 }

/-- A contiguous byte tensor of 2^32 + 4 bytes. -/
def sampleHuge : Tensor :=
  { sampleTensor with sizes := [4294967300], nbytes := 4294967300, data_ptr := ⟨3, 0⟩ }

/-- Sample native heap: `sampleTensor` at address 1, `sampleView` at 2,
`sampleOddLayout` at 3, `sampleHuge` at 4. -/
def sampleHeap : Heap where
  tensors := fun p =>
    if p = 1 then some sampleTensor
    else if p = 2 then some sampleView
    else if p = 3 then some sampleOddLayout
    else if p = 4 then some sampleHuge
    else none
  mem := sampleMemory

/-- The JNI environment at the start of a native call whose array allocations
succeed. -/
def sampleEnv : JNIEnv :=
  { pending := none, heapAvailable := true, calls := [] }

/-- The JNI environment at the start of a native call when the Java heap is
exhausted. -/
def sampleEnvExhausted : JNIEnv :=
  { pending := none, heapAvailable := false, calls := [] }

/-- A size below 2^31 survives the conversion to `jsize`. -/
theorem toJsize_of_lt (n : Nat) (h : n < 2 ^ 31) : toJsize n = n := by
  unfold toJsize
  omega

/-- The conversion to `jsize` never enlarges a size. -/
theorem toJsize_le (n : Nat) : toJsize n ≤ n := by
  unfold toJsize
  omega

/-- The number of elements a region copy reads is at most the size it was
derived from. -/
theorem toJsize_toNat_le (n : Nat) : (toJsize n).toNat ≤ n := by
  have := toJsize_le n
  omega

/-- A region copy of `len` elements reads `len` elements. -/
theorem readBuffer_length (buf : Nat → Int) (len : Int) :
    (readBuffer buf len).length = len.toNat := by
  simp [readBuffer]

/-- Element `k` read from a buffer is the buffer's element `k`. -/
theorem readBuffer_getElem? (buf : Nat → Int) (n k : Nat) (h : k < n) :
    (readBuffer buf n)[k]? = some (buf k) := by
  simp [readBuffer, h]

/-- Reading a list back through its own buffer returns the list. -/
theorem readBuffer_getD (xs : List Int) :
    readBuffer (fun k => xs.getD k 0) xs.length = xs := by
  apply List.ext_getElem
  · simp [readBuffer]
  · intro i h1 h2
    simp [readBuffer, List.getD_eq_getElem?_getD, h2]

/-- Buffers that agree below `len` are read alike. -/
theorem readBuffer_congr (buf1 buf2 : Nat → Int) (len : Int)
    (h : ∀ k, k < len.toNat → buf1 k = buf2 k) : readBuffer buf1 len = readBuffer buf2 len := by
  unfold readBuffer
  apply List.map_congr_left
  intro k hk
  exact h k (List.mem_range.mp hk)

/-- A region copy depends on the buffer only through the elements it reads. -/
theorem setPrimitiveArrayRegion_congr (array : jarray) (start len : Int) (buf1 buf2 : Nat → Int)
    (h : readBuffer buf1 len = readBuffer buf2 len) :
    setPrimitiveArrayRegion array start len buf1 = setPrimitiveArrayRegion array start len buf2 := by
  unfold setPrimitiveArrayRegion
  rw [h]

/-- An allocation that yields an array of `n` elements was asked for `n`
elements. -/
theorem newPrimitiveArray_eq_replicate (env : JNIEnv) (len : Int) (n : Nat)
    (h : newPrimitiveArray env len = some (List.replicate n 0)) : len = n := by
  unfold newPrimitiveArray at h
  split at h
  · rename_i hc
    have h2 := congrArg List.length (Option.some.inj h)
    simp at h2
    omega
  · cases h

/-- Filling a fresh array of `n` elements with `n` elements leaves exactly the
elements read. -/
theorem fill_fresh_array (n : Nat) (buf : Nat → Int) :
    setPrimitiveArrayRegion (some (List.replicate n 0)) 0 n buf = some (readBuffer buf n) := by
  simp [setPrimitiveArrayRegion]

/-! ## Lemmas on the error-translation bracket -/

/-- No C++ exception leaves the bracket. -/
theorem API_END_flow_ne_raise {α : Type} (U : Utils) (body : Out α) (e : NativeError) :
    (API_END U body).flow ≠ Flow.raise e := by
  unfold API_END
  split
  · simp
  · rename_i h
    intro hflow
    exact h e hflow

/-- A body that raises is seen by the Java caller as the managed exception
with the original message. -/
theorem API_END_of_raise {α : Type} (U : Utils) (env : JNIEnv) (heap : Heap) (e : NativeError) :
    (API_END U ({ flow := Flow.raise e, env := env, heap := heap } : Out α)).flow = Flow.caught ∧
    (API_END U ({ flow := Flow.raise e, env := env, heap := heap } : Out α)).java
      = JavaResult.exception ⟨U.apiExceptionClass, e.what⟩ := by
  simp [API_END, Out.java, JNIEnv.ThrowNew, JNIEnv.FindClass]

/-- What the Java caller sees does not depend on the native heap a body
leaves behind. -/
theorem API_END_java_congr {α : Type} (U : Utils) (o1 o2 : Out α) (hflow : o1.flow = o2.flow)
    (henv : o1.env = o2.env) : (API_END U o1).java = (API_END U o2).java := by
  obtain ⟨f1, e1, h1⟩ := o1
  obtain ⟨f2, e2, h2⟩ := o2
  simp only at hflow henv
  subst hflow henv
  cases f1 <;> simp [API_END, Out.java]

/-! ## Lemmas on the readers -/

/-- On a tensor that is not contiguous the Java caller of `torchDataPtr` gets
the `IllegalStateException`. -/
theorem torchDataPtr_exception_of_not_contiguous (U : Utils) (env : JNIEnv) (heap : Heap)
    (jhandle tensor_ptr : Nat) (t : Tensor) (hvalid : ValidHandle U heap jhandle tensor_ptr t)
    (hnot : t.is_contiguous = false) :
    (Java_ai_djl_pytorch_jni_PyTorchLibrary_torchDataPtr U env heap jhandle).java
      = JavaResult.exception ⟨"java/lang/IllegalStateException",
          "Currently data_ptr() only supports contiguous tensors"⟩ := by
  obtain ⟨hptr, hlive⟩ := hvalid
  simp [Java_ai_djl_pytorch_jni_PyTorchLibrary_torchDataPtr, hptr, hlive, hnot, API_END, Out.java,
    JNIEnv.NewByteArray, JNIEnv.SetByteArrayRegion, JNIEnv.ThrowNew, JNIEnv.FindClass]

/-- A byte array reaches the Java caller only for a contiguous tensor. -/
theorem torchDataPtr_value_contiguous (U : Utils) (env : JNIEnv) (heap : Heap) (jhandle p : Nat)
    (t : Tensor) (hv : ValidHandle U heap jhandle p t) (bytes : jarray)
    (h : (Java_ai_djl_pytorch_jni_PyTorchLibrary_torchDataPtr U env heap jhandle).java
      = JavaResult.value bytes) : t.is_contiguous = true := by
  cases hc : t.is_contiguous with
  | true => rfl
  | false =>
    rw [torchDataPtr_exception_of_not_contiguous U env heap jhandle p t hv hc] at h
    cases h

/-- What `torchDataPtr` yields depends on the tensor only through its
contiguity flag, its byte size and the bytes of its buffer below that size. -/
theorem torchDataPtr_congr (U : Utils) (env : JNIEnv) (heap1 heap2 : Heap) (h1 h2 p1 p2 : Nat)
    (t1 t2 : Tensor) (hv1 : ValidHandle U heap1 h1 p1 t1) (hv2 : ValidHandle U heap2 h2 p2 t2)
    (hcontiguous : t1.is_contiguous = t2.is_contiguous) (hnbytes : t1.nbytes = t2.nbytes)
    (hbytes : ∀ k, k < t1.nbytes → heap1.buffer t1.data_ptr k = heap2.buffer t2.data_ptr k) :
    (Java_ai_djl_pytorch_jni_PyTorchLibrary_torchDataPtr U env heap1 h1).java
      = (Java_ai_djl_pytorch_jni_PyTorchLibrary_torchDataPtr U env heap2 h2).java := by
  have hread : readBuffer (heap1.buffer t1.data_ptr) (toJsize t1.nbytes)
      = readBuffer (heap2.buffer t2.data_ptr) (toJsize t1.nbytes) :=
    readBuffer_congr _ _ _ (fun k hk => hbytes k (lt_of_lt_of_le hk (toJsize_toNat_le _)))
  simp only [Java_ai_djl_pytorch_jni_PyTorchLibrary_torchDataPtr, hv1.1, hv1.2, hv2.1, hv2.2,
    JNIEnv.SetByteArrayRegion, ← hcontiguous, ← hnbytes,
    setPrimitiveArrayRegion_congr _ _ _ _ _ hread, hread]
  exact API_END_java_congr U _ _ rfl rfl

/-- What `torchSizes` yields depends on the tensor only through its sizes. -/
theorem torchSizes_congr (U : Utils) (env : JNIEnv) (heap1 heap2 : Heap) (h1 h2 p1 p2 : Nat)
    (t1 t2 : Tensor) (hv1 : ValidHandle U heap1 h1 p1 t1) (hv2 : ValidHandle U heap2 h2 p2 t2)
    (hsizes : t1.sizes = t2.sizes) :
    (Java_ai_djl_pytorch_jni_PyTorchLibrary_torchSizes U env heap1 h1).java
      = (Java_ai_djl_pytorch_jni_PyTorchLibrary_torchSizes U env heap2 h2).java := by
  simp only [Java_ai_djl_pytorch_jni_PyTorchLibrary_torchSizes, hv1.1, hv1.2, hv2.1, hv2.2,
    Tensor.dim, hsizes]
  exact API_END_java_congr U _ _ rfl rfl

/-- What `torchDType` yields depends on the tensor only through its scalar
type. -/
theorem torchDType_congr (U : Utils) (env : JNIEnv) (heap1 heap2 : Heap) (h1 h2 p1 p2 : Nat)
    (t1 t2 : Tensor) (hv1 : ValidHandle U heap1 h1 p1 t1) (hv2 : ValidHandle U heap2 h2 p2 t2)
    (htype : t1.scalar_type = t2.scalar_type) :
    (Java_ai_djl_pytorch_jni_PyTorchLibrary_torchDType U env heap1 h1).java
      = (Java_ai_djl_pytorch_jni_PyTorchLibrary_torchDType U env heap2 h2).java := by
  simp only [Java_ai_djl_pytorch_jni_PyTorchLibrary_torchDType, hv1.1, hv1.2, hv2.1, hv2.2, htype]
  cases GetDTypeFromScalarType U t2.scalar_type <;> exact API_END_java_congr U _ _ rfl rfl

/-- A table whose scalar types are pairwise distinct reads back the dtype
code it was entered with. -/
theorem dtypeTable_roundtrip (U : Utils) (dtype type : Int)
    (htable : (U.dtypeTable.map Prod.snd).Nodup)
    (hfwd : GetScalarTypeFromDType U dtype = some type) :
    GetDTypeFromScalarType U type = some dtype := by
  unfold GetScalarTypeFromDType at hfwd
  unfold GetDTypeFromScalarType
  cases hfind : U.dtypeTable.find? (fun e => decide (e.1 = dtype)) with
  | none => simp [hfind] at hfwd
  | some entry =>
    rw [hfind] at hfwd
    simp only [Option.map_some', Option.some.injEq] at hfwd
    have hmem : entry ∈ U.dtypeTable := List.mem_of_find?_eq_some hfind
    have hfst : entry.1 = dtype := by
      have := List.find?_some hfind
      simpa using this
    cases hback : U.dtypeTable.find? (fun e => decide (e.2 = type)) with
    | none =>
      have hnone := List.find?_eq_none.mp hback entry hmem
      simp [hfwd] at hnone
    | some entry' =>
      have hmem' : entry' ∈ U.dtypeTable := List.mem_of_find?_eq_some hback
      have hsnd' : entry'.2 = type := by
        have := List.find?_some hback
        simpa using this
      have heq : entry' = entry :=
        List.inj_on_of_nodup_map htable hmem' hmem (hsnd'.trans hfwd.symm)
      simp [heq, hfst]

/-- C1: for every handle of a tensor that is not contiguous, the Java caller
of `torchDataPtr` does get the `IllegalStateException`; but the native code
does not stop there: after `ThrowNew` it calls `NewByteArray` and
`SetByteArrayRegion` on the tensor's memory and returns that array, so the part
of the claim that no byte array is allocated and filled fails on the code. -/
theorem torchDataPtr_not_contiguous_runs_on (U : Utils) (env : JNIEnv) (heap : Heap)
    (jhandle tensor_ptr : Nat) (t : Tensor) (hvalid : ValidHandle U heap jhandle tensor_ptr t)
    (hnot : t.is_contiguous = false) :
    (Java_ai_djl_pytorch_jni_PyTorchLibrary_torchDataPtr U env heap jhandle).java
      = JavaResult.exception ⟨"java/lang/IllegalStateException",
          "Currently data_ptr() only supports contiguous tensors"⟩ ∧
    (Java_ai_djl_pytorch_jni_PyTorchLibrary_torchDataPtr U env heap jhandle).flow
      = Flow.ret (setPrimitiveArrayRegion (newPrimitiveArray env (toJsize t.nbytes)) 0
          (toJsize t.nbytes) (heap.buffer t.data_ptr)) ∧
    (Java_ai_djl_pytorch_jni_PyTorchLibrary_torchDataPtr U env heap jhandle).env.calls
      = env.calls ++
        [JniCall.ThrowNew "java/lang/IllegalStateException"
            "Currently data_ptr() only supports contiguous tensors",
          JniCall.NewByteArray (toJsize t.nbytes) (newPrimitiveArray env (toJsize t.nbytes)),
          JniCall.SetByteArrayRegion (newPrimitiveArray env (toJsize t.nbytes)) 0
            (toJsize t.nbytes) (readBuffer (heap.buffer t.data_ptr) (toJsize t.nbytes))] := by
  obtain ⟨hptr, hlive⟩ := hvalid
  refine ⟨?_, ?_, ?_⟩
  · simp [Java_ai_djl_pytorch_jni_PyTorchLibrary_torchDataPtr, hptr, hlive, hnot, API_END,
      Out.java, JNIEnv.NewByteArray, JNIEnv.SetByteArrayRegion, JNIEnv.ThrowNew,
      JNIEnv.FindClass]
  · simp [Java_ai_djl_pytorch_jni_PyTorchLibrary_torchDataPtr, hptr, hlive, hnot, API_END,
      JNIEnv.NewByteArray, JNIEnv.SetByteArrayRegion, JNIEnv.ThrowNew, newPrimitiveArray]
  · simp [Java_ai_djl_pytorch_jni_PyTorchLibrary_torchDataPtr, hptr, hlive, hnot, API_END,
      JNIEnv.NewByteArray, JNIEnv.SetByteArrayRegion, JNIEnv.ThrowNew, JNIEnv.FindClass,
      newPrimitiveArray]

/-- C1 at the failing input: on the transposed view at handle 2 the native
code returns the four bytes of the tensor's memory, after the calls
`ThrowNew`, `NewByteArray(4)` and `SetByteArrayRegion`. -/
theorem torchDataPtr_not_contiguous_runs_on_sample :
    ValidHandle sampleUtils sampleHeap 2 2 sampleView ∧ sampleView.is_contiguous = false ∧
    (Java_ai_djl_pytorch_jni_PyTorchLibrary_torchDataPtr sampleUtils sampleEnv sampleHeap 2).flow
      = Flow.ret (some [0, 1, 2, 3]) ∧
    (Java_ai_djl_pytorch_jni_PyTorchLibrary_torchDataPtr sampleUtils sampleEnv sampleHeap 2).env.calls
      = [JniCall.ThrowNew "java/lang/IllegalStateException"
            "Currently data_ptr() only supports contiguous tensors",
          JniCall.NewByteArray 4 (some [0, 0, 0, 0]),
          JniCall.SetByteArrayRegion (some [0, 0, 0, 0]) 0 4 [0, 1, 2, 3]] :=
  have h := torchDataPtr_not_contiguous_runs_on sampleUtils sampleEnv sampleHeap 2 2 sampleView
    ⟨rfl, rfl⟩ rfl
  ⟨⟨rfl, rfl⟩, rfl, h.2.1.trans (by decide), h.2.2.trans (by decide)⟩

/-! ## C2: `torchLayout` -/

/-- C2: for every handle of a live tensor, `torchLayout` returns 0 for the
strided layout, 1 for sparse and 2 for mkldnn, and every code it returns is 0,
1 or 2. For every other native layout value the `default` branch makes the
`IllegalStateException` pending with `ThrowNew` and then, having no `return`,
runs off the end of the function: no defined result reaches the Java caller,
so the part of the claim that the call raises the exception for such a layout
fails on the code. -/
theorem torchLayout_default_runs_off_end (U : Utils) (env : JNIEnv) (heap : Heap)
    (jhandle tensor_ptr : Nat) (t : Tensor) (hvalid : ValidHandle U heap jhandle tensor_ptr t)
    (hpending : env.pending = none) :
    (t.layout = kStrided →
      (Java_ai_djl_pytorch_jni_PyTorchLibrary_torchLayout U env heap jhandle).java
        = JavaResult.value 0) ∧
    (t.layout = kSparse →
      (Java_ai_djl_pytorch_jni_PyTorchLibrary_torchLayout U env heap jhandle).java
        = JavaResult.value 1) ∧
    (t.layout = kMkldnn →
      (Java_ai_djl_pytorch_jni_PyTorchLibrary_torchLayout U env heap jhandle).java
        = JavaResult.value 2) ∧
    (t.layout ≠ kStrided → t.layout ≠ kSparse → t.layout ≠ kMkldnn →
      (Java_ai_djl_pytorch_jni_PyTorchLibrary_torchLayout U env heap jhandle).flow = Flow.fall ∧
      (Java_ai_djl_pytorch_jni_PyTorchLibrary_torchLayout U env heap jhandle).env.pending
        = some ⟨"java/lang/IllegalStateException",
            "Internal PyTorch error, layout should only have kStrided, kSparse or kMkldnn"⟩ ∧
      (Java_ai_djl_pytorch_jni_PyTorchLibrary_torchLayout U env heap jhandle).env.calls
        = env.calls ++ [JniCall.ThrowNew "java/lang/IllegalStateException"
            "Internal PyTorch error, layout should only have kStrided, kSparse or kMkldnn"] ∧
      (Java_ai_djl_pytorch_jni_PyTorchLibrary_torchLayout U env heap jhandle).java
        = JavaResult.unspecified) ∧
    (∀ th, (Java_ai_djl_pytorch_jni_PyTorchLibrary_torchLayout U env heap jhandle).java
        ≠ JavaResult.exception th) ∧
    (∀ code, (Java_ai_djl_pytorch_jni_PyTorchLibrary_torchLayout U env heap jhandle).java
        = JavaResult.value code → code = 0 ∨ code = 1 ∨ code = 2) := by
  obtain ⟨hptr, hlive⟩ := hvalid
  by_cases h0 : t.layout = kStrided
  · simp [Java_ai_djl_pytorch_jni_PyTorchLibrary_torchLayout, hptr, hlive, API_END, Out.java,
      hpending, h0, kStrided, kSparse, kMkldnn]
  · by_cases h1 : t.layout = kSparse
    · simp [Java_ai_djl_pytorch_jni_PyTorchLibrary_torchLayout, hptr, hlive, API_END, Out.java,
        hpending, h1, kStrided, kSparse, kMkldnn]
    · by_cases h2 : t.layout = kMkldnn
      · simp [Java_ai_djl_pytorch_jni_PyTorchLibrary_torchLayout, hptr, hlive, API_END, Out.java,
          hpending, h2, kStrided, kSparse, kMkldnn]
      · simp [Java_ai_djl_pytorch_jni_PyTorchLibrary_torchLayout, hptr, hlive, API_END, Out.java,
          h0, h1, h2, JNIEnv.ThrowNew, JNIEnv.FindClass]

/-- C2 at the failing input: on the tensor of layout 5 at handle 3,
`torchLayout` calls `ThrowNew` and ends without a `return`, with no defined
result for the Java caller; the strided tensor at handle 1 has code 0. -/
theorem torchLayout_default_runs_off_end_sample :
    ValidHandle sampleUtils sampleHeap 3 3 sampleOddLayout ∧ sampleEnv.pending = none ∧
    (Java_ai_djl_pytorch_jni_PyTorchLibrary_torchLayout sampleUtils sampleEnv sampleHeap 3).flow
      = Flow.fall ∧
    (Java_ai_djl_pytorch_jni_PyTorchLibrary_torchLayout sampleUtils sampleEnv sampleHeap 3).env.calls
      = [JniCall.ThrowNew "java/lang/IllegalStateException"
          "Internal PyTorch error, layout should only have kStrided, kSparse or kMkldnn"] ∧
    (Java_ai_djl_pytorch_jni_PyTorchLibrary_torchLayout sampleUtils sampleEnv sampleHeap 3).java
      = JavaResult.unspecified ∧
    (Java_ai_djl_pytorch_jni_PyTorchLibrary_torchLayout sampleUtils sampleEnv sampleHeap 1).java
      = JavaResult.value 0 :=
  have h := (torchLayout_default_runs_off_end sampleUtils sampleEnv sampleHeap 3 3 sampleOddLayout
    ⟨rfl, rfl⟩ rfl).2.2.2.1 (by decide) (by decide) (by decide)
  ⟨⟨rfl, rfl⟩, rfl, h.1, h.2.2.1, h.2.2.2,
    (torchLayout_default_runs_off_end sampleUtils sampleEnv sampleHeap 1 1 sampleTensor ⟨rfl, rfl⟩
      rfl).1 rfl⟩

/-! ## C3: the error-translation bracket -/

/-- C3: when resolving the handle raises a C++ exception `e`, `torchDeleteTensor`,
whose body is not inside the bracket, lets `e` leave the native function: nothing
becomes pending and the Java caller gets no managed exception. Each of the
other eleven entry points turns the same `e` into the managed exception with
the message of `e`. -/
theorem torchDeleteTensor_lets_native_exception_escape (U : Utils) (L : Torch) (env : JNIEnv)
    (heap : Heap) (jhandle : Nat) (e : NativeError)
    (hraise : U.GetPointerFromJHandle jhandle = Except.error e) :
    ((Java_ai_djl_pytorch_jni_PyTorchLibrary_torchDeleteTensor U env heap jhandle).flow
        = Flow.raise e ∧
      (Java_ai_djl_pytorch_jni_PyTorchLibrary_torchDeleteTensor U env heap jhandle).env = env ∧
      (Java_ai_djl_pytorch_jni_PyTorchLibrary_torchDeleteTensor U env heap jhandle).java
        = JavaResult.unspecified) ∧
    (Java_ai_djl_pytorch_jni_PyTorchLibrary_torchSizes U env heap jhandle).java
      = JavaResult.exception ⟨U.apiExceptionClass, e.what⟩ ∧
    (Java_ai_djl_pytorch_jni_PyTorchLibrary_torchDType U env heap jhandle).java
      = JavaResult.exception ⟨U.apiExceptionClass, e.what⟩ ∧
    (Java_ai_djl_pytorch_jni_PyTorchLibrary_torchDevice U env heap jhandle).java
      = JavaResult.exception ⟨U.apiExceptionClass, e.what⟩ ∧
    (Java_ai_djl_pytorch_jni_PyTorchLibrary_torchLayout U env heap jhandle).java
      = JavaResult.exception ⟨U.apiExceptionClass, e.what⟩ ∧
    (Java_ai_djl_pytorch_jni_PyTorchLibrary_torchDataPtr U env heap jhandle).java
      = JavaResult.exception ⟨U.apiExceptionClass, e.what⟩ ∧
    (∀ jdtype jdevice jcopy result_ptr,
      (Java_ai_djl_pytorch_jni_PyTorchLibrary_torchTo U L env heap jhandle jdtype jdevice jcopy
        result_ptr).java = JavaResult.exception ⟨U.apiExceptionClass, e.what⟩) ∧
    (∀ result_ptr,
      (Java_ai_djl_pytorch_jni_PyTorchLibrary_tensorClone U L env heap jhandle result_ptr).java
        = JavaResult.exception ⟨U.apiExceptionClass, e.what⟩) ∧
    (∀ jdim jstart jend jstep result_ptr,
      (Java_ai_djl_pytorch_jni_PyTorchLibrary_torchSlice U L env heap jhandle jdim jstart jend
        jstep result_ptr).java = JavaResult.exception ⟨U.apiExceptionClass, e.what⟩) ∧
    (∀ jmasked_handle result_ptr,
      (Java_ai_djl_pytorch_jni_PyTorchLibrary_torchMaskedSelect U L env heap jhandle
        jmasked_handle result_ptr).java = JavaResult.exception ⟨U.apiExceptionClass, e.what⟩) ∧
    (∀ jother result_ptr,
      (Java_ai_djl_pytorch_jni_PyTorchLibrary_torchLogicalXor U L env heap jhandle jother
        result_ptr).java = JavaResult.exception ⟨U.apiExceptionClass, e.what⟩) ∧
    (∀ result_ptr,
      (Java_ai_djl_pytorch_jni_PyTorchLibrary_torchLogicalNot U L env heap jhandle result_ptr).java
        = JavaResult.exception ⟨U.apiExceptionClass, e.what⟩) := by
  refine ⟨?_, ?_, ?_, ?_, ?_, ?_, ?_, ?_, ?_, ?_, ?_, ?_⟩
  · simp [Java_ai_djl_pytorch_jni_PyTorchLibrary_torchDeleteTensor, hraise, Out.java]
  · simp only [Java_ai_djl_pytorch_jni_PyTorchLibrary_torchSizes, hraise]
    exact (API_END_of_raise U env heap e).2
  · simp only [Java_ai_djl_pytorch_jni_PyTorchLibrary_torchDType, hraise]
    exact (API_END_of_raise U env heap e).2
  · simp only [Java_ai_djl_pytorch_jni_PyTorchLibrary_torchDevice, hraise]
    exact (API_END_of_raise U env heap e).2
  · simp only [Java_ai_djl_pytorch_jni_PyTorchLibrary_torchLayout, hraise]
    exact (API_END_of_raise U env heap e).2
  · simp only [Java_ai_djl_pytorch_jni_PyTorchLibrary_torchDataPtr, hraise]
    exact (API_END_of_raise U env heap e).2
  · intro _ _ _ _
    simp only [Java_ai_djl_pytorch_jni_PyTorchLibrary_torchTo, hraise]
    exact (API_END_of_raise U env heap e).2
  · intro _
    simp only [Java_ai_djl_pytorch_jni_PyTorchLibrary_tensorClone, hraise]
    exact (API_END_of_raise U env heap e).2
  · intro _ _ _ _ _
    simp only [Java_ai_djl_pytorch_jni_PyTorchLibrary_torchSlice, hraise]
    exact (API_END_of_raise U env heap e).2
  · intro _ _
    simp only [Java_ai_djl_pytorch_jni_PyTorchLibrary_torchMaskedSelect, hraise]
    exact (API_END_of_raise U env heap e).2
  · intro _ _
    simp only [Java_ai_djl_pytorch_jni_PyTorchLibrary_torchLogicalXor, hraise]
    exact (API_END_of_raise U env heap e).2
  · intro _
    simp only [Java_ai_djl_pytorch_jni_PyTorchLibrary_torchLogicalNot, hraise]
    exact (API_END_of_raise U env heap e).2

/-- C3 at the failing input: with helpers whose resolution raises on the null
handle, `torchDeleteTensor` lets the C++ exception out while `torchSizes`
reports it as a managed exception. -/
theorem torchDeleteTensor_lets_native_exception_escape_sample :
    sampleUtils.GetPointerFromJHandle 0 = Except.error ⟨"null handle"⟩ ∧
    (Java_ai_djl_pytorch_jni_PyTorchLibrary_torchDeleteTensor sampleUtils sampleEnv sampleHeap 0).flow
      = Flow.raise ⟨"null handle"⟩ ∧
    (Java_ai_djl_pytorch_jni_PyTorchLibrary_torchSizes sampleUtils sampleEnv sampleHeap 0).java
      = JavaResult.exception ⟨"ai/djl/engine/EngineException", "null handle"⟩ :=
  have h := torchDeleteTensor_lets_native_exception_escape sampleUtils sampleTorch sampleEnv
    sampleHeap 0 ⟨"null handle"⟩ rfl
  ⟨rfl, h.1.1, h.2.1⟩

/-! ## C4: `torchSizes` -/

/-- C4, as amended: for every handle of a live tensor, when the result array of
`dim()` elements is allocated, `torchSizes` returns an array whose length is the
tensor's rank and whose i-th element is the size of the i-th dimension, in
order, for every i below the rank (the empty array for rank 0). -/
theorem torchSizes_allocated (U : Utils) (env : JNIEnv) (heap : Heap) (jhandle tensor_ptr : Nat)
    (t : Tensor) (hvalid : ValidHandle U heap jhandle tensor_ptr t)
    (hpending : env.pending = none)
    (halloc : (env.NewLongArray (toJsize t.dim)).1 = some (List.replicate t.dim 0)) :
    ∃ xs : List Int,
      (Java_ai_djl_pytorch_jni_PyTorchLibrary_torchSizes U env heap jhandle).java
        = JavaResult.value (some xs) ∧
      xs.length = t.dim ∧ (∀ i, i < t.dim → xs[i]? = t.sizes[i]?) ∧ xs = t.sizes ∧
      (t.dim = 0 → xs = []) := by
  obtain ⟨hptr, hlive⟩ := hvalid
  have hlen : toJsize t.dim = t.dim := newPrimitiveArray_eq_replicate env _ _ halloc
  simp only [JNIEnv.NewLongArray] at halloc
  refine ⟨t.sizes, ?_, rfl, fun _ _ => rfl, rfl, ?_⟩
  · simp only [Java_ai_djl_pytorch_jni_PyTorchLibrary_torchSizes, hptr, hlive, API_END, Out.java,
      JNIEnv.NewLongArray, JNIEnv.SetLongArrayRegion, halloc, hpending]
    rw [hlen, fill_fresh_array]
    simp only [Tensor.dim, readBuffer_getD]
  · intro h
    exact List.length_eq_zero.mp h

/-- C4 as amended, on the sample 2x2 tensor: the array returned is `[2, 2]`. -/
theorem torchSizes_allocated_sample :
    ValidHandle sampleUtils sampleHeap 1 1 sampleTensor ∧ sampleEnv.pending = none ∧
    (sampleEnv.NewLongArray (toJsize sampleTensor.dim)).1
      = some (List.replicate sampleTensor.dim 0) ∧
    ∃ xs : List Int,
      (Java_ai_djl_pytorch_jni_PyTorchLibrary_torchSizes sampleUtils sampleEnv sampleHeap 1).java
        = JavaResult.value (some xs) ∧ xs = [2, 2] :=
  have h := torchSizes_allocated sampleUtils sampleEnv sampleHeap 1 1 sampleTensor ⟨rfl, rfl⟩ rfl
    (by decide)
  ⟨⟨rfl, rfl⟩, rfl, by decide, h.choose, h.choose_spec.1, h.choose_spec.2.2.2.1⟩

/-- C4 as stated fails: for the live 2x2 tensor at handle 1, when the Java heap
cannot serve `NewLongArray`, `torchSizes` returns the null reference, not an
array of length 2. -/
theorem torchSizes_allocation_failure :
    ValidHandle sampleUtils sampleHeap 1 1 sampleTensor ∧ sampleEnvExhausted.pending = none ∧
    (Java_ai_djl_pytorch_jni_PyTorchLibrary_torchSizes sampleUtils sampleEnvExhausted
      sampleHeap 1).java = JavaResult.value none ∧
    ¬ ∃ xs : List Int,
      (Java_ai_djl_pytorch_jni_PyTorchLibrary_torchSizes sampleUtils sampleEnvExhausted
        sampleHeap 1).java = JavaResult.value (some xs) ∧ xs.length = sampleTensor.dim := by
  have h : (Java_ai_djl_pytorch_jni_PyTorchLibrary_torchSizes sampleUtils sampleEnvExhausted
      sampleHeap 1).java = JavaResult.value none := by decide
  refine ⟨⟨rfl, rfl⟩, rfl, h, ?_⟩
  rintro ⟨xs, hxs, -⟩
  rw [h] at hxs
  cases hxs

/-! ## C5: `torchDataPtr` on a contiguous tensor -/

/-- C5, as amended: for every handle of a live contiguous tensor, when the
result array of `nbytes()` elements is allocated, `torchDataPtr` returns a byte
array whose length is the tensor's byte size and whose k-th byte is the k-th
byte of the raw memory at `data_ptr()`, for every k below that length. -/
theorem torchDataPtr_allocated (U : Utils) (env : JNIEnv) (heap : Heap) (jhandle tensor_ptr : Nat)
    (t : Tensor) (hvalid : ValidHandle U heap jhandle tensor_ptr t)
    (hcontiguous : t.is_contiguous = true) (hpending : env.pending = none)
    (halloc : (env.NewByteArray (toJsize t.nbytes)).1 = some (List.replicate t.nbytes 0)) :
    ∃ bytes : List Int,
      (Java_ai_djl_pytorch_jni_PyTorchLibrary_torchDataPtr U env heap jhandle).java
        = JavaResult.value (some bytes) ∧
      bytes.length = t.nbytes ∧
      ∀ k, k < t.nbytes →
        bytes[k]? = some (heap.mem t.data_ptr.block (t.data_ptr.offset + k)) := by
  obtain ⟨hptr, hlive⟩ := hvalid
  have hlen : toJsize t.nbytes = t.nbytes := newPrimitiveArray_eq_replicate env _ _ halloc
  simp only [JNIEnv.NewByteArray] at halloc
  refine ⟨readBuffer (heap.buffer t.data_ptr) t.nbytes, ?_, ?_, ?_⟩
  · simp only [Java_ai_djl_pytorch_jni_PyTorchLibrary_torchDataPtr, hptr, hlive, API_END, Out.java,
      JNIEnv.NewByteArray, JNIEnv.SetByteArrayRegion, halloc, hpending, hcontiguous]
    rw [hlen] at halloc ⊢
    simp [halloc, fill_fresh_array, hpending]
  · simp [readBuffer_length]
  · intro k hk
    rw [readBuffer_getElem? _ _ _ hk]
    rfl

/-- C5 as amended, on the sample contiguous tensor of 4 bytes: the array
returned has 4 elements. -/
theorem torchDataPtr_allocated_sample :
    ValidHandle sampleUtils sampleHeap 1 1 sampleTensor ∧ sampleTensor.is_contiguous = true ∧
    sampleEnv.pending = none ∧
    (sampleEnv.NewByteArray (toJsize sampleTensor.nbytes)).1
      = some (List.replicate sampleTensor.nbytes 0) ∧
    ∃ bytes : List Int,
      (Java_ai_djl_pytorch_jni_PyTorchLibrary_torchDataPtr sampleUtils sampleEnv sampleHeap 1).java
        = JavaResult.value (some bytes) ∧ bytes.length = sampleTensor.nbytes :=
  have h := torchDataPtr_allocated sampleUtils sampleEnv sampleHeap 1 1 sampleTensor ⟨rfl, rfl⟩ rfl
    rfl (by decide)
  ⟨⟨rfl, rfl⟩, rfl, rfl, by decide, h.choose, h.choose_spec.1, h.choose_spec.2.1⟩

/-- C5 as stated fails twice: for the live contiguous tensor at handle 1, when
the Java heap cannot serve `NewByteArray`, `torchDataPtr` returns the null
reference; and for the live contiguous tensor of 2^32 + 4 bytes at handle 4 the
byte size narrowed to `jsize` is 4, so the array returned has 4 elements, not
`nbytes()` many. -/
theorem torchDataPtr_length_not_nbytes :
    (ValidHandle sampleUtils sampleHeap 1 1 sampleTensor ∧ sampleTensor.is_contiguous = true ∧
      (Java_ai_djl_pytorch_jni_PyTorchLibrary_torchDataPtr sampleUtils sampleEnvExhausted
        sampleHeap 1).java = JavaResult.value none) ∧
    (ValidHandle sampleUtils sampleHeap 4 4 sampleHuge ∧ sampleHuge.is_contiguous = true ∧
      sampleHuge.nbytes = 4294967300 ∧
      (Java_ai_djl_pytorch_jni_PyTorchLibrary_torchDataPtr sampleUtils sampleEnv
        sampleHeap 4).java = JavaResult.value (some [30, 31, 32, 33])) ∧
    ¬ ∃ bytes : List Int,
      (Java_ai_djl_pytorch_jni_PyTorchLibrary_torchDataPtr sampleUtils sampleEnv sampleHeap 4).java
        = JavaResult.value (some bytes) ∧ bytes.length = sampleHuge.nbytes := by
  have h : (Java_ai_djl_pytorch_jni_PyTorchLibrary_torchDataPtr sampleUtils sampleEnv
      sampleHeap 4).java = JavaResult.value (some [30, 31, 32, 33]) := by decide
  refine ⟨⟨⟨rfl, rfl⟩, rfl, by decide⟩, ⟨⟨rfl, rfl⟩, rfl, rfl, h⟩, ?_⟩
  rintro ⟨bytes, hb, hlen⟩
  rw [h] at hb
  injection hb with hb
  injection hb with hb
  subst hb
  simp [sampleHuge] at hlen

/-! ## C6 and C7: `torchDevice` -/

/-- C6: for every handle of a live tensor, when the result array is allocated,
`torchDevice` returns an array of exactly 2 integers whose element 0 is the
integer value of the device type and whose element 1 is the device index. -/
theorem torchDevice_pair (U : Utils) (env : JNIEnv) (heap : Heap) (jhandle tensor_ptr : Nat)
    (t : Tensor) (hvalid : ValidHandle U heap jhandle tensor_ptr t)
    (hpending : env.pending = none) (halloc : (env.NewIntArray 2).1 ≠ none) :
    ∃ xs : List Int,
      (Java_ai_djl_pytorch_jni_PyTorchLibrary_torchDevice U env heap jhandle).java
        = JavaResult.value (some xs) ∧
      xs.length = 2 ∧ xs[0]? = some t.device_type ∧ xs[1]? = some t.device_index := by
  obtain ⟨hptr, hlive⟩ := hvalid
  have hheap : env.heapAvailable = true := by
    cases hh : env.heapAvailable
    · simp [JNIEnv.NewIntArray, newPrimitiveArray, hh] at halloc
    · rfl
  refine ⟨[t.device_type, t.device_index], ?_, rfl, rfl, rfl⟩
  simp [Java_ai_djl_pytorch_jni_PyTorchLibrary_torchDevice, hptr, hlive, API_END, Out.java,
    JNIEnv.NewIntArray, JNIEnv.SetIntArrayRegion, newPrimitiveArray, hheap, hpending,
    setPrimitiveArrayRegion, readBuffer, List.range_succ]

/-- C6 on the sample CPU tensor: the array returned has the 2 elements of the
device pair. -/
theorem torchDevice_pair_sample :
    ValidHandle sampleUtils sampleHeap 1 1 sampleTensor ∧ sampleEnv.pending = none ∧
    (sampleEnv.NewIntArray 2).1 ≠ none ∧
    ∃ xs : List Int,
      (Java_ai_djl_pytorch_jni_PyTorchLibrary_torchDevice sampleUtils sampleEnv sampleHeap 1).java
        = JavaResult.value (some xs) ∧
      xs.length = 2 ∧ xs[0]? = some 0 ∧ xs[1]? = some (-1) :=
  ⟨⟨rfl, rfl⟩, rfl, by decide,
    torchDevice_pair sampleUtils sampleEnv sampleHeap 1 1 sampleTensor ⟨rfl, rfl⟩ rfl (by decide)⟩

/-- C7: for every handle of a live tensor, when `NewIntArray(2)` returns null,
the Java caller of `torchDevice` does get the `NullPointerException` and no
device pair; but the native code does not stop at `ThrowNew`: it goes on to call
`SetIntArrayRegion` on the null reference with the device pair, so the part of
the claim that no write into the missing array is performed fails on the code. -/
theorem torchDevice_null_array_runs_on (U : Utils) (env : JNIEnv) (heap : Heap)
    (jhandle tensor_ptr : Nat) (t : Tensor) (hvalid : ValidHandle U heap jhandle tensor_ptr t)
    (hnull : (env.NewIntArray 2).1 = none) :
    (Java_ai_djl_pytorch_jni_PyTorchLibrary_torchDevice U env heap jhandle).java
      = JavaResult.exception ⟨"java/lang/NullPointerException", "Unable to create int array"⟩ ∧
    (Java_ai_djl_pytorch_jni_PyTorchLibrary_torchDevice U env heap jhandle).flow = Flow.ret none ∧
    (Java_ai_djl_pytorch_jni_PyTorchLibrary_torchDevice U env heap jhandle).env.calls
      = env.calls ++
        [JniCall.NewIntArray 2 none,
          JniCall.ThrowNew "java/lang/NullPointerException" "Unable to create int array",
          JniCall.SetIntArrayRegion none 0 2 [t.device_type, t.device_index]] := by
  obtain ⟨hptr, hlive⟩ := hvalid
  simp only [JNIEnv.NewIntArray] at hnull
  simp [Java_ai_djl_pytorch_jni_PyTorchLibrary_torchDevice, hptr, hlive, API_END, Out.java,
    JNIEnv.NewIntArray, JNIEnv.SetIntArrayRegion, JNIEnv.ThrowNew, JNIEnv.FindClass, hnull,
    setPrimitiveArrayRegion, readBuffer, List.range_succ]

/-- C7 at the failing input: with the Java heap exhausted, `torchDevice` on the
tensor at handle 1 makes the calls `NewIntArray(2)`, `ThrowNew` and then
`SetIntArrayRegion(null, 0, 2, [0, -1])`. -/
theorem torchDevice_null_array_runs_on_sample :
    ValidHandle sampleUtils sampleHeap 1 1 sampleTensor ∧
    (sampleEnvExhausted.NewIntArray 2).1 = none ∧
    (Java_ai_djl_pytorch_jni_PyTorchLibrary_torchDevice sampleUtils sampleEnvExhausted
      sampleHeap 1).env.calls
      = [JniCall.NewIntArray 2 none,
          JniCall.ThrowNew "java/lang/NullPointerException" "Unable to create int array",
          JniCall.SetIntArrayRegion none 0 2 [0, -1]] :=
  ⟨⟨rfl, rfl⟩, rfl,
    (torchDevice_null_array_runs_on sampleUtils sampleEnvExhausted sampleHeap 1 1 sampleTensor
      ⟨rfl, rfl⟩ rfl).2.2⟩

/-! ## C8: the dtype round trip -/

/-- C8: the dtype code round-trips through the bridge. Let the scalar types of
the fixed lookup table be pairwise distinct (the table maps in both
directions), let the native `to` yield a tensor of the scalar type it was asked
for, and let the handle `CreatePointer` makes resolve to the address it wraps.
Then for every handle, dtype code `jdtype`, device and copy flag: if `torchTo`
succeeds with handle `r`, the handle was that of a live tensor, the table maps
`jdtype`, and `torchDType` on `r` returns `jdtype`. -/
theorem torchTo_torchDType_roundtrip (U : Utils) (L : Torch) (env : JNIEnv) (heap : Heap)
    (jhandle : Nat) (jdtype : Int) (jdevice : List Int) (jcopy : Nat) (result_ptr : Nat) (r : Nat)
    (htable : (U.dtypeTable.map Prod.snd).Nodup)
    (hto : ∀ mem t device type non_blocking copy out,
      L.to_ mem t device type non_blocking copy = Except.ok out → out.1.scalar_type = type)
    (hhandle : U.GetPointerFromJHandle (U.CreatePointer result_ptr) = Except.ok result_ptr)
    (hsuccess : (Java_ai_djl_pytorch_jni_PyTorchLibrary_torchTo U L env heap jhandle jdtype
      jdevice jcopy result_ptr).java = JavaResult.value r) :
    (∃ tensor_ptr t type, ValidHandle U heap jhandle tensor_ptr t ∧
      GetScalarTypeFromDType U jdtype = some type) ∧
    (Java_ai_djl_pytorch_jni_PyTorchLibrary_torchDType U
      (Java_ai_djl_pytorch_jni_PyTorchLibrary_torchTo U L env heap jhandle jdtype jdevice jcopy
        result_ptr).env
      (Java_ai_djl_pytorch_jni_PyTorchLibrary_torchTo U L env heap jhandle jdtype jdevice jcopy
        result_ptr).heap r).java = JavaResult.value jdtype := by
  unfold Java_ai_djl_pytorch_jni_PyTorchLibrary_torchTo at hsuccess ⊢
  cases hptr : U.GetPointerFromJHandle jhandle with
  | error e => simp [hptr, API_END, Out.java, JNIEnv.ThrowNew] at hsuccess
  | ok tensor_ptr =>
    cases hdev : U.GetDeviceFromJDevice jdevice with
    | error e => simp [hptr, hdev, API_END, Out.java, JNIEnv.ThrowNew] at hsuccess
    | ok device =>
      cases hlive : heap.tensors tensor_ptr with
      | none => simp [hptr, hdev, hlive, API_END, Out.java] at hsuccess
      | some t =>
        cases htype : GetScalarTypeFromDType U jdtype with
        | none => simp [hptr, hdev, hlive, htype, API_END, Out.java] at hsuccess
        | some type =>
          cases hcall : L.to_ heap.mem t device type false (decide (jcopy = JNI_TRUE)) with
          | error e =>
            simp [hptr, hdev, hlive, htype, hcall, API_END, Out.java, JNIEnv.ThrowNew] at hsuccess
          | ok out =>
            simp only [hptr, hdev, hlive, htype, hcall, API_END, Out.java] at hsuccess ⊢
            cases hpending : env.pending with
            | some th => simp [hpending] at hsuccess
            | none =>
              simp only [hpending, JavaResult.value.injEq] at hsuccess
              subst hsuccess
              refine ⟨⟨tensor_ptr, t, type, ⟨hptr, hlive⟩, rfl⟩, ?_⟩
              have hback : GetDTypeFromScalarType U out.1.scalar_type = some jdtype := by
                rw [hto _ _ _ _ _ _ _ hcall]
                exact dtypeTable_roundtrip U jdtype type htable htype
              simp [Java_ai_djl_pytorch_jni_PyTorchLibrary_torchDType, hhandle, Heap.new, hback,
                API_END, Out.java, hpending]

/-- C8 on a sample: casting the byte tensor at handle 1 to dtype code 1 into a
new object at address 7 gives handle 7, whose dtype reads back as 1. -/
theorem torchTo_torchDType_roundtrip_sample :
    (sampleUtils.dtypeTable.map Prod.snd).Nodup ∧
    (Java_ai_djl_pytorch_jni_PyTorchLibrary_torchTo sampleUtils sampleTorch sampleEnv sampleHeap
      1 1 [0, -1] 1 7).java = JavaResult.value 7 ∧
    (Java_ai_djl_pytorch_jni_PyTorchLibrary_torchDType sampleUtils
      (Java_ai_djl_pytorch_jni_PyTorchLibrary_torchTo sampleUtils sampleTorch sampleEnv sampleHeap
        1 1 [0, -1] 1 7).env
      (Java_ai_djl_pytorch_jni_PyTorchLibrary_torchTo sampleUtils sampleTorch sampleEnv sampleHeap
        1 1 [0, -1] 1 7).heap 7).java = JavaResult.value 1 :=
  have hsuccess : (Java_ai_djl_pytorch_jni_PyTorchLibrary_torchTo sampleUtils sampleTorch
      sampleEnv sampleHeap 1 1 [0, -1] 1 7).java = JavaResult.value 7 := by decide
  ⟨by decide, hsuccess,
    (torchTo_torchDType_roundtrip sampleUtils sampleTorch sampleEnv sampleHeap 1 1 [0, -1] 1 7 7
      (by decide)
      (by
        intro mem t device type non_blocking copy out h
        simp only [sampleTorch, Except.ok.injEq] at h
        rw [← h])
      rfl hsuccess).2⟩

/-! ## C9: `tensorClone` -/

/-- C10: for every handle `jhandle` of a live tensor, `torchDeleteTensor` returns
normally, leaves the JNI environment and the raw memory as they were, and frees
exactly the native object of `jhandle`: that handle is no longer live, while
every handle of another live native object is still live, resolves to the same
tensor object, and `torchSizes`, `torchDType` and `torchDataPtr` return on it
what they returned before the call. -/
theorem torchDeleteTensor_frees_only_its_tensor (U : Utils) (env : JNIEnv) (heap : Heap)
    (jhandle tensor_ptr : Nat) (t : Tensor)
    (hvalid : ValidHandle U heap jhandle tensor_ptr t) :
    (Java_ai_djl_pytorch_jni_PyTorchLibrary_torchDeleteTensor U env heap jhandle).flow
      = Flow.ret () ∧
    (Java_ai_djl_pytorch_jni_PyTorchLibrary_torchDeleteTensor U env heap jhandle).env = env ∧
    (Java_ai_djl_pytorch_jni_PyTorchLibrary_torchDeleteTensor U env heap jhandle).heap.tensors
      tensor_ptr = none ∧
    (∀ t', ¬ ValidHandle U
      (Java_ai_djl_pytorch_jni_PyTorchLibrary_torchDeleteTensor U env heap jhandle).heap
      jhandle tensor_ptr t') ∧
    (Java_ai_djl_pytorch_jni_PyTorchLibrary_torchDeleteTensor U env heap jhandle).heap.mem
      = heap.mem ∧
    (∀ other other_ptr t', other_ptr ≠ tensor_ptr → ValidHandle U heap other other_ptr t' →
      ValidHandle U
        (Java_ai_djl_pytorch_jni_PyTorchLibrary_torchDeleteTensor U env heap jhandle).heap
        other other_ptr t' ∧
      ∀ env',
        (Java_ai_djl_pytorch_jni_PyTorchLibrary_torchSizes U env'
          (Java_ai_djl_pytorch_jni_PyTorchLibrary_torchDeleteTensor U env heap jhandle).heap
          other).java
          = (Java_ai_djl_pytorch_jni_PyTorchLibrary_torchSizes U env' heap other).java ∧
        (Java_ai_djl_pytorch_jni_PyTorchLibrary_torchDType U env'
          (Java_ai_djl_pytorch_jni_PyTorchLibrary_torchDeleteTensor U env heap jhandle).heap
          other).java
          = (Java_ai_djl_pytorch_jni_PyTorchLibrary_torchDType U env' heap other).java ∧
        (Java_ai_djl_pytorch_jni_PyTorchLibrary_torchDataPtr U env'
          (Java_ai_djl_pytorch_jni_PyTorchLibrary_torchDeleteTensor U env heap jhandle).heap
          other).java
          = (Java_ai_djl_pytorch_jni_PyTorchLibrary_torchDataPtr U env' heap other).java) := by
  obtain ⟨hptr, hlive⟩ := hvalid
  have hout : Java_ai_djl_pytorch_jni_PyTorchLibrary_torchDeleteTensor U env heap jhandle
      = { flow := Flow.ret (), env := env, heap := heap.delete tensor_ptr } := by
    simp [Java_ai_djl_pytorch_jni_PyTorchLibrary_torchDeleteTensor, hptr, hlive]
  rw [hout]
  refine ⟨rfl, rfl, by simp [Heap.delete], ?_, rfl, ?_⟩
  · rintro t' ⟨-, h⟩
    simp [Heap.delete] at h
  · rintro other other_ptr t' hne ⟨hoptr, holive⟩
    have hkept : ValidHandle U (heap.delete tensor_ptr) other other_ptr t' :=
      ⟨hoptr, by simp [Heap.delete, hne, holive]⟩
    exact ⟨hkept, fun env' =>
      ⟨torchSizes_congr U env' _ _ _ _ _ _ _ _ hkept ⟨hoptr, holive⟩ rfl,
        torchDType_congr U env' _ _ _ _ _ _ _ _ hkept ⟨hoptr, holive⟩ rfl,
        torchDataPtr_congr U env' _ _ _ _ _ _ _ _ hkept ⟨hoptr, holive⟩ rfl rfl
          (fun _ _ => rfl)⟩⟩

/-- C10 on a sample: deleting the tensor at handle 1 frees address 1 and leaves
the tensor at handle 2 in place. -/
theorem torchDeleteTensor_frees_only_its_tensor_sample :
    ValidHandle sampleUtils sampleHeap 1 1 sampleTensor ∧
    (Java_ai_djl_pytorch_jni_PyTorchLibrary_torchDeleteTensor sampleUtils sampleEnv
      sampleHeap 1).heap.tensors 1 = none ∧
    ValidHandle sampleUtils
      (Java_ai_djl_pytorch_jni_PyTorchLibrary_torchDeleteTensor sampleUtils sampleEnv
        sampleHeap 1).heap 2 2 sampleView :=
  have h := torchDeleteTensor_frees_only_its_tensor sampleUtils sampleEnv sampleHeap 1 1
    sampleTensor ⟨rfl, rfl⟩
  ⟨⟨rfl, rfl⟩, h.2.2.1, (h.2.2.2.2.2 2 2 sampleView (by decide) ⟨rfl, rfl⟩).1⟩

end DJL
